import Mathlib

/-!
Verification of the hubnote (HubSpot note) modal flow of the SyllaBot Slack app.

The repository contains two snapshots of the hubnote v2 implementation:
`src/index.js` (namespace `IndexJs` below) and `src/unnamed/part_002`
(namespace `Part002` below).  Both are embedded faithfully where the claims
need them: the private-metadata codec, the dependent-selection handlers, the
modal builder, the option-list handlers, the submit handler, the in-memory
session store, and the `/api/hubnote/create` endpoint validation.
-/

namespace SlackBot

/-! ## JSON codec model

`parsePrivateMetadata` in `src/index.js` is
`try { return JSON.parse(md || "{}"); } catch { return {}; }`.
The values serialized into `private_metadata` by the hubnote modal builder are
flat JSON objects whose values are all strings, so the codec is modelled on
that subset: a state is an ordered association list of string keys to string
values (JS objects preserve insertion order under `JSON.stringify` and
`JSON.parse`).  The printer models `JSON.stringify` (it escapes `"` and `\`
and emits a `\u00XX` escape for control characters, which is a JSON-legal
rendering choice); the parser models `JSON.parse` on the whitespace-free
object-of-strings subset that the printer emits, rejecting anything
malformed. -/

/-- Hexadecimal digit character for a value below 16 (lower case, as a JSON
escape digit). -/
def hexDigit (n : Nat) : Char :=
  if n < 10 then Char.ofNat (48 + n) else Char.ofNat (87 + n)

/-- JSON escape of a single character inside a string literal. -/
def escChar (c : Char) : List Char :=
  if c = '"' then ['\\', '"']
  else if c = '\\' then ['\\', '\\']
  else if c.toNat < 32 then
    ['\\', 'u', '0', '0', hexDigit (c.toNat / 16), hexDigit (c.toNat % 16)]
  else [c]

/-- JSON escape of string contents. -/
def escStr : List Char → List Char
  | [] => []
  | c :: rest => escChar c ++ escStr rest

/-- A JSON string literal, quotes included. -/
def strLit (s : String) : List Char :=
  '"' :: (escStr s.data ++ ['"'])

/-- The comma-separated members of a JSON object of strings (empty for the
empty object). -/
def membersChars : List (String × String) → List Char
  | [] => []
  | [(k, v)] => strLit k ++ ':' :: strLit v
  | (k, v) :: rest => strLit k ++ ':' :: strLit v ++ ',' :: membersChars rest

/-- Models `JSON.stringify` on a flat object of strings. -/
def jsonStringifyFlat (fields : List (String × String)) : String :=
  ⟨'{' :: (membersChars fields ++ ['}'])⟩

/-- Value of a hexadecimal digit character, `none` if not a hex digit. -/
def hexVal (c : Char) : Option Nat :=
  if '0' ≤ c ∧ c ≤ '9' then some (c.toNat - 48)
  else if 'a' ≤ c ∧ c ≤ 'f' then some (c.toNat - 87)
  else if 'A' ≤ c ∧ c ≤ 'F' then some (c.toNat - 55)
  else none

/-- Parse the body of a JSON string literal (after the opening quote), up to
and including the closing quote; returns the decoded characters and the rest
of the input. -/
def parseStrBody : List Char → Option (List Char × List Char)
  | [] => none
  | c :: rest =>
    if c = '"' then some ([], rest)
    else if c = '\\' then
      match rest with
      | [] => none
      | e :: rest2 =>
        if e = '"' then (parseStrBody rest2).map fun p => ('"' :: p.1, p.2)
        else if e = '\\' then (parseStrBody rest2).map fun p => ('\\' :: p.1, p.2)
        else if e = '/' then (parseStrBody rest2).map fun p => ('/' :: p.1, p.2)
        else if e = 'u' then
          match rest2 with
          | h1 :: h2 :: h3 :: h4 :: rest3 =>
            match hexVal h1, hexVal h2, hexVal h3, hexVal h4 with
            | some a, some b, some c2, some d =>
              (parseStrBody rest3).map fun p =>
                (Char.ofNat (((a * 16 + b) * 16 + c2) * 16 + d) :: p.1, p.2)
            | _, _, _, _ => none
          | _ => none
        else none
    else (parseStrBody rest).map fun p => (c :: p.1, p.2)

/-- Parse a JSON string literal (opening quote included). -/
def parseStringLit (cs : List Char) : Option (String × List Char) :=
  match cs with
  | '"' :: rest => (parseStrBody rest).map fun p => (⟨p.1⟩, p.2)
  | _ => none

/-- Parse one or more `"key":"value"` members followed by the closing brace;
`fuel` bounds the number of members. -/
def parseMembers : Nat → List Char → Option (List (String × String) × List Char)
  | 0, _ => none
  | fuel + 1, cs =>
    match parseStringLit cs with
    | none => none
    | some (k, cs1) =>
      match cs1 with
      | ':' :: cs2 =>
        match parseStringLit cs2 with
        | none => none
        | some (v, cs3) =>
          match cs3 with
          | '}' :: rest => some ([(k, v)], rest)
          | ',' :: rest => (parseMembers fuel rest).map fun p => ((k, v) :: p.1, p.2)
          | _ => none
      | _ => none

/-- Models `JSON.parse` restricted to the flat string-object subset emitted by
`jsonStringifyFlat`; malformed input yields `none` (the thrown exception). -/
def jsonParseFlat (s : String) : Option (List (String × String)) :=
  match s.data with
  | [] => none
  | c :: rest =>
    if c = '{' then
      if rest = ['}'] then some []
      else
        match parseMembers rest.length rest with
        | some (fields, []) => some fields
        | _ => none
    else none

/-- Embedding of `parsePrivateMetadata` (src/index.js lines 268-274):
`try { return JSON.parse(md || "{}"); } catch { return {}; }`.  The argument
is `none` for an absent (`null`/`undefined`) metadata slot; a falsy value
(absent or empty string) is replaced by `"{}"` before parsing, and a parse
failure yields the default empty state. -/
def parsePrivateMetadata (md : Option String) : List (String × String) :=
  let raw : String :=
    match md with
    | none => "\x7b\x7d"
    | some s => if s = "" then "\x7b\x7d" else s
  (jsonParseFlat raw).getD []

/-- Models the JavaScript `String.prototype.trim`: strip leading and trailing
whitespace. -/
def jsTrim (s : String) : String :=
  ⟨((s.data.dropWhile Char.isWhitespace).reverse.dropWhile Char.isWhitespace).reverse⟩

/-- Models the JavaScript `label.slice(0, n)`: the first `n` characters. -/
def jsSlice (n : Nat) (s : String) : String :=
  ⟨s.data.take n⟩

namespace IndexJs

/-! ## src/index.js: hubnote v2 metadata state and handlers -/

/-- The metadata object built by `buildHubnoteModalV2` (src/index.js lines
817-828) and threaded through the v2 action handlers.  All values are strings;
`stageLabel` is only present after the stage handler has stored a label
(src/index.js lines 1113-1115), so it is an `Option`. -/
structure HubnoteMeta where
  correlationId : String
  originChannelId : String
  originUserId : String
  version : String
  recordType : String
  pipelineId : String
  stageId : String
  depsNonce : String
  stageLabel : Option String
deriving DecidableEq

/-- The field list `JSON.stringify` serializes for a metadata object, in the
insertion order of the object literal in `buildHubnoteModalV2` (a spread
`metaOverride` keeps existing keys in place and appends new ones, so a
`stageLabel` added later comes last). -/
def HubnoteMeta.toFields (m : HubnoteMeta) : List (String × String) :=
  [("correlationId", m.correlationId),
   ("originChannelId", m.originChannelId),
   ("originUserId", m.originUserId),
   ("version", m.version),
   ("recordType", m.recordType),
   ("pipelineId", m.pipelineId),
   ("stageId", m.stageId),
   ("depsNonce", m.depsNonce)] ++
  (match m.stageLabel with
   | none => []
   | some l => [("stageLabel", l)])

/-- Embedding of `String(Number(meta.depsNonce || "0") + 1)` (src/index.js
lines 1056 and 1084) on the canonical decimal numerals the builder and
handlers actually store in `depsNonce`. -/
def bumpNonce (s : String) : String :=
  toString (((if s = "" then "0" else s).toNat?).getD 0 + 1)

/-- The slice of the view built by `buildHubnoteModalV2` (src/index.js lines
817-908) that the claims depend on.  `stage_block_v2` and `record_block_v2`
carry the `depsNonce` suffix in their block ids; the record-type, pipeline,
note-title and note-body blocks have fixed block ids; the two plain-text
inputs are created with no `initial_value`. -/
structure ViewV2 where
  stageBlockSuffix : String
  recordBlockSuffix : String
  noteTitleInitial : Option String
  noteBodyInitial : Option String
  meta : HubnoteMeta
deriving DecidableEq

/-- Embedding of `buildHubnoteModalV2` applied to a fully-populated
`metaOverride` (as every v2 action handler does: the override carries every
key of the default literal, so the spread result is the override itself).
The block-id nonce is `String(meta.depsNonce || "0")`; the title and body
inputs carry no initial value in this snapshot. -/
def buildHubnoteModalV2 (meta : HubnoteMeta) : ViewV2 :=
  { stageBlockSuffix := if meta.depsNonce = "" then "0" else meta.depsNonce
    recordBlockSuffix := if meta.depsNonce = "" then "0" else meta.depsNonce
    noteTitleInitial := none
    noteBodyInitial := none
    meta := meta }

/-- The metadata of the view opened by the `/hubnote` command (src/index.js
lines 1015-1028): defaults of the builder literal merged with the override
`recordType: "ticket", depsNonce: "0"`. -/
def initMeta (correlationId originChannelId originUserId : String) : HubnoteMeta :=
  { correlationId := correlationId
    originChannelId := originChannelId
    originUserId := originUserId
    version := "v2"
    recordType := "ticket"
    pipelineId := ""
    stageId := ""
    depsNonce := "0"
    stageLabel := none }

/-- Metadata transition of `app.action("hubnote_v2_record_type_select")`
(src/index.js lines 1043-1070): an empty selection value returns without
change; otherwise the record type is stored and `pipelineId` and `stageId`
are cleared while `depsNonce` is bumped. -/
def onRecordTypeSelect (m : HubnoteMeta) (value : String) : HubnoteMeta :=
  if value = "" then m
  else
    { m with
      recordType := value
      pipelineId := ""
      stageId := ""
      depsNonce := bumpNonce m.depsNonce }

/-- Metadata transition of `app.action("hubnote_v2_pipeline_select")`
(src/index.js lines 1072-1098): an empty selection value returns without
change; otherwise the pipeline is stored and `stageId` is cleared while
`depsNonce` is bumped. -/
def onPipelineSelect (m : HubnoteMeta) (value : String) : HubnoteMeta :=
  if value = "" then m
  else
    { m with
      pipelineId := value
      stageId := ""
      depsNonce := bumpNonce m.depsNonce }

/-- Metadata transition of `app.action("hubnote_v2_stage_select")`
(src/index.js lines 1100-1127): an empty selection value returns without
change; otherwise only `stageId` (and the optional `stageLabel`) is written —
the handler deliberately does not rebuild blocks or touch the nonce. -/
def onStageSelect (m : HubnoteMeta) (value label : String) : HubnoteMeta :=
  if value = "" then m
  else
    { m with
      stageId := value
      stageLabel := if label = "" then m.stageLabel else some label }

/-- View-level transition of the record-type handler: it rebuilds the whole
view with `buildHubnoteModalV2` on the updated metadata (src/index.js lines
1059-1066). -/
def onRecordTypeSelectView (v : ViewV2) (value : String) : ViewV2 :=
  if value = "" then v
  else buildHubnoteModalV2 (onRecordTypeSelect v.meta value)

/-- View-level transition of the pipeline handler (src/index.js lines
1087-1094): rebuilds the view on the updated metadata. -/
def onPipelineSelectView (v : ViewV2) (value : String) : ViewV2 :=
  if value = "" then v
  else buildHubnoteModalV2 (onPipelineSelect v.meta value)

/-- View-level transition of the stage handler (src/index.js lines
1117-1123): `buildCleanViewPayload` re-posts the existing blocks unchanged
with only the serialized metadata replaced, so every block id and initial
value of the view is kept. -/
def onStageSelectView (v : ViewV2) (value label : String) : ViewV2 :=
  if value = "" then v
  else { v with meta := onStageSelect v.meta value label }

/-- A field-change event of the dependent-selection state machine. -/
inductive FieldEvent
  | recordType (value : String)
  | pipeline (value : String)
  | stage (value label : String)
deriving DecidableEq

/-- Apply one field-change event to the metadata state. -/
def applyEvent (m : HubnoteMeta) : FieldEvent → HubnoteMeta
  | .recordType v => onRecordTypeSelect m v
  | .pipeline v => onPipelineSelect m v
  | .stage v l => onStageSelect m v l

/-- Apply a sequence of field-change events in order. -/
def applyEvents (m : HubnoteMeta) : List FieldEvent → HubnoteMeta
  | [] => m
  | e :: rest => applyEvents (applyEvent m e) rest

/-- The prefix-validity invariant claimed for the metadata state: a stage may
only be selected under a selected pipeline.  (The src/index.js metadata
carries no `recordId` field at all — the leaf record selection lives only in
Slack view state — so the `recordId` clause of the spec has no metadata
carrier in this snapshot.) -/
def chainValid (m : HubnoteMeta) : Prop :=
  m.stageId ≠ "" → m.pipelineId ≠ ""

instance (m : HubnoteMeta) : Decidable (chainValid m) := by
  unfold chainValid; infer_instance

/-- An event sequence is stage-guarded when every stage event in it fires from
a state whose `pipelineId` is non-empty (the normal UI flow: the stage
dropdown offers real stage ids only once a pipeline is selected). -/
def stageGuarded : HubnoteMeta → List FieldEvent → Prop
  | _, [] => True
  | m, e :: rest =>
    (match e with
     | .stage _ _ => m.pipelineId ≠ ""
     | _ => True) ∧ stageGuarded (applyEvent m e) rest

instance stageGuardedDecidable :
    ∀ (m : HubnoteMeta) (evs : List FieldEvent), Decidable (stageGuarded m evs)
  | _, [] => .isTrue trivial
  | m, e :: rest => by
    have : Decidable (stageGuarded (applyEvent m e) rest) := stageGuardedDecidable _ _
    unfold stageGuarded
    cases e <;> exact inferInstance

/-! ## src/index.js: record option-list handler and submit handler -/

/-- A record returned by `hsSearchRecords`: a stable HubSpot id and a
human-readable label. -/
structure SearchRecord where
  id : String
  label : String
deriving DecidableEq

/-- Outcome of the live HubSpot search awaited by the options handler:
either a result list or a thrown error. -/
inductive SearchOutcome
  | ok (records : List SearchRecord)
  | fail
deriving DecidableEq

/-- An acknowledgment of an option-list request: the option list sent (label,
value pairs) and how many milliseconds after the request it was sent. -/
structure OptionsAck where
  opts : List (String × String)
  ackDelayMs : Nat
deriving DecidableEq

/-- Embedding of `app.options("hubnote_v2_record_select")` (src/index.js
lines 1187-1217).  The guards are evaluated from the persisted metadata with
no delay; the search itself is awaited directly with no handler-level
timeout, so the acknowledgment is delayed by however long `hsSearchRecords`
takes (`searchDelayMs`), and a thrown error is acknowledged with a generic
error option. -/
def recordSelectOptions (meta : HubnoteMeta) (searchDelayMs : Nat)
    (outcome : SearchOutcome) : OptionsAck :=
  if meta.pipelineId = "" then
    { opts := [("Select a pipeline first", "SELECT_PIPELINE_FIRST")], ackDelayMs := 0 }
  else if meta.stageId = "" then
    { opts := [("Select a stage first", "SELECT_STAGE_FIRST")], ackDelayMs := 0 }
  else
    match outcome with
    | .ok records =>
      let mapped := (records.take 100).map fun r => (jsSlice 75 r.label, r.id)
      if mapped = [] then
        { opts := [("No records found", "NO_RECORDS")], ackDelayMs := searchDelayMs }
      else
        { opts := mapped, ackDelayMs := searchDelayMs }
    | .fail =>
      { opts := [("ERROR loading records", "ERROR_RECORDS")], ackDelayMs := searchDelayMs }

/-- The values the submit handler reads from `view.state.values`
(src/index.js lines 1225-1231): the selected option value of each select
(empty string when nothing is selected) and the raw text of the two
plain-text inputs. -/
structure SubmitValues where
  recordTypeSel : String
  pipelineSel : String
  stageSel : String
  recordSel : String
  noteTitleRaw : String
  noteBodyRaw : String
deriving DecidableEq

/-- Outcome of the submit handler, distinguishing where in the
acknowledgment protocol each response is delivered. -/
inductive SubmitOutcome
  | inlineErrors (errors : List (String × String))
  | postAckEphemeral (text : String)
  | postAckConfigError (text : String)
  | relayToZapier (recordType pipelineId stageId recordId noteTitle noteBody : String)
deriving DecidableEq

/-- The effective record type on submit (src/index.js line 1225):
`findSelectedOptionValue(...) || meta.recordType || ""`. -/
def effRecordType (meta : HubnoteMeta) (vs : SubmitValues) : String :=
  if vs.recordTypeSel ≠ "" then vs.recordTypeSel else meta.recordType

/-- The effective pipeline id on submit (src/index.js line 1226). -/
def effPipelineId (meta : HubnoteMeta) (vs : SubmitValues) : String :=
  if vs.pipelineSel ≠ "" then vs.pipelineSel else meta.pipelineId

/-- The effective stage id on submit (src/index.js line 1227). -/
def effStageId (meta : HubnoteMeta) (vs : SubmitValues) : String :=
  if vs.stageSel ≠ "" then vs.stageSel else meta.stageId

/-- The inline `errors` object built before `ack` (src/index.js lines
1233-1237), keyed by the offending block id, in source order. -/
def submitErrors (meta : HubnoteMeta) (vs : SubmitValues) : List (String × String) :=
  (if effRecordType meta vs = "" then [("record_type_block_v2", "Select Ticket or Deal.")] else []) ++
  (if effPipelineId meta vs = "" then [("pipeline_block_v2", "Select a pipeline.")] else []) ++
  (if jsTrim vs.noteTitleRaw = "" then [("note_title_block_v2", "Note title is required.")] else []) ++
  (if jsTrim vs.noteBodyRaw = "" then [("note_body_block_v2", "Note body is required.")] else [])

/-- Embedding of `app.view("hubnote_modal_submit_v2")` (src/index.js lines
1222-1263) up to the Zapier POST.  Record type, pipeline, title and body are
checked before `ack` and reported as block-attached inline errors
(`response_action: "errors"`); if those pass, the handler acknowledges and
only then checks stage and record, reporting them via a generic ephemeral
message.  Every check reads already-known state only (no network call).
`webhookConfigured` models the presence of `ZAPIER_HUBNOTE_WEBHOOK_URL`. -/
def hubnoteSubmit (meta : HubnoteMeta) (vs : SubmitValues)
    (webhookConfigured : Bool) : SubmitOutcome :=
  if submitErrors meta vs ≠ [] then .inlineErrors (submitErrors meta vs)
  else if effStageId meta vs = "" ∨ vs.recordSel = "" then
    .postAckEphemeral "Please select Pipeline Stage and Record before submitting."
  else if ¬webhookConfigured then
    .postAckConfigError "ZAPIER_HUBNOTE_WEBHOOK_URL is missing."
  else
    .relayToZapier (effRecordType meta vs) (effPipelineId meta vs) (effStageId meta vs)
      vs.recordSel (jsTrim vs.noteTitleRaw) (jsTrim vs.noteBodyRaw)

/-! ## src/index.js: session store and add-files flow -/

/-- The 15-minute session TTL (src/index.js line 785). -/
def HUBNOTE_SESSION_TTL_MS : Nat := 15 * 60 * 1000

/-- A stored hubnote session, with the fields written by the Zapier callback
handler (src/index.js lines 1501-1510) plus the `sessionId` and `expiresAt`
fields `hubnoteSetSession` adds. -/
structure Session where
  correlationId : String
  hubspotNoteId : String
  hubspotObjectType : String
  hubspotObjectId : String
  originChannelId : String
  originUserId : String
  dmChannelId : String
  sessionId : String
  expiresAtMs : Nat
deriving DecidableEq

/-- The in-memory session map, keyed by session id. -/
def SessionStore := String → Option Session

/-- Embedding of `hubnoteSetSession` (src/index.js lines 792-798): stores the
payload under the id with `sessionId` overwritten by the key and a fresh
expiry `now + TTL`. -/
def hubnoteSetSession (store : SessionStore) (sessionId : String)
    (data : Session) (nowMs : Nat) : SessionStore :=
  fun id =>
    if id = sessionId then
      some { data with sessionId := sessionId, expiresAtMs := nowMs + HUBNOTE_SESSION_TTL_MS }
    else store id

/-- Embedding of `hubnoteGetSession` (src/index.js lines 800-808): returns
nothing for an absent id; for a present session past its expiry it deletes
the entry and returns nothing; otherwise it returns the session.  The result
is the returned value paired with the store after the call. -/
def hubnoteGetSession (store : SessionStore) (sessionId : String)
    (nowMs : Nat) : Option Session × SessionStore :=
  match store sessionId with
  | none => (none, store)
  | some s =>
    if s.expiresAtMs < nowMs then
      (none, fun id => if id = sessionId then none else store id)
    else (some s, store)

/-- User-visible outcome of the add-files "Yes" button handler. -/
inductive YesOutcome
  | sessionExpiredPrompt
  | dmOpenFailed
  | dmPromptSent (dmChannelId : String)
deriving DecidableEq

/-- Embedding of `app.action("hubnote_add_files_yes")` (src/index.js lines
1548-1594).  `nowGetMs` is the clock at the session lookup, `dmOpen` the
channel id returned by `conversations.open` (`none` for a missing id), and
`nowSetMs` the clock at the re-store.  On a live session and a successful DM
open, the session is re-stored with only `dmChannelId` changed and a fresh
expiry. -/
def hubnoteAddFilesYes (store : SessionStore) (sessionId : String)
    (nowGetMs : Nat) (dmOpen : Option String) (nowSetMs : Nat) :
    YesOutcome × SessionStore :=
  match hubnoteGetSession store sessionId nowGetMs with
  | (none, store1) => (.sessionExpiredPrompt, store1)
  | (some session, store1) =>
    match dmOpen with
    | none => (.dmOpenFailed, store1)
    | some dmChannelId =>
      if dmChannelId = "" then (.dmOpenFailed, store1)
      else
        (.dmPromptSent dmChannelId,
         hubnoteSetSession store1 sessionId { session with dmChannelId := dmChannelId } nowSetMs)

/-! ## src/index.js: POST /api/hubnote/create -/

/-- The JSON body fields destructured by the `/api/hubnote/create` handler
(src/index.js lines 174-183); absent fields are modelled as the empty string
(both are falsy to the `missing` checks). -/
structure CreateBody where
  correlation_id : String
  hubspot_object_type : String
  hubspot_object_id : String
  note_title : String
  note_body : String
  origin_channel_id : String
  origin_user_id : String
deriving DecidableEq

/-- Models `String.prototype.toLowerCase` on the ASCII range used by the
comparison against `"deal"`. -/
def jsToLower (s : String) : String := ⟨s.data.map Char.toLower⟩

/-- The `missing` list computed by the handler (src/index.js lines 186-192),
in source order. -/
def createMissing (b : CreateBody) : List String :=
  (if b.hubspot_object_type = "" then ["hubspot_object_type"] else []) ++
  (if b.hubspot_object_id = "" then ["hubspot_object_id"] else []) ++
  (if b.origin_channel_id = "" then ["origin_channel_id"] else []) ++
  (if b.origin_user_id = "" then ["origin_user_id"] else []) ++
  (if b.note_title = "" then ["note_title"] else []) ++
  (if b.note_body = "" then ["note_body"] else [])

/-- Normalization of the object type (src/index.js line 201):
`String(hubspot_object_type).toLowerCase() === "deal" ? "deal" : "ticket"`. -/
def createRecordType (b : CreateBody) : String :=
  if jsToLower b.hubspot_object_type = "deal" then "deal" else "ticket"

/-- The decision the endpoint makes before any HubSpot call: a 400 rejection
listing the missing fields, or proceeding with the normalized type and the
stringified record id. -/
inductive CreateDecision
  | reject400 (missing : List String)
  | proceed (recordType recordId : String)
deriving DecidableEq

/-- Embedding of the validation and normalization prefix of the
`/api/hubnote/create` handler (src/index.js lines 186-202). -/
def hubnoteCreateDecide (b : CreateBody) : CreateDecision :=
  if createMissing b ≠ [] then .reject400 (createMissing b)
  else .proceed (createRecordType b) b.hubspot_object_id

end IndexJs

/-! ## Transport retention contract

Slack (the chat transport) retains a widget's user-entered state across a
`views.update` exactly when the block's structural identity — its block id —
is unchanged; a changed block id discards the previously rendered widget and
rebuilds it empty.  This is the external contract both snapshots rely on for
nonce-based invalidation (spec sections 4.3 and 6); the transport itself is
outside the repository, so it is modelled here as a pure retention
function. -/

/-- The selection a dropdown still shows after a view update, given the block
id (here: the nonce suffix embedded in it) before and after: retained when
the structural identity is unchanged, discarded otherwise. -/
def retainedSelection {α : Type} [DecidableEq α] (oldSuffix newSuffix : α)
    (oldValue : String) : String :=
  if newSuffix = oldSuffix then oldValue else ""

namespace Part002

/-! ## src/unnamed/part_002: hubnote v2 metadata, builder and handlers -/

/-- The metadata object built by `buildHubnoteModalV2` in
src/unnamed/part_002 (lines 772-783): per-field numeric nonces instead of the
single `depsNonce` of src/index.js. -/
structure HubnoteMeta where
  correlationId : String
  originChannelId : String
  originUserId : String
  version : String
  recordType : String
  pipelineId : String
  stageId : String
  noncePipeline : Nat
  nonceStage : Nat
  nonceRecord : Nat
deriving DecidableEq

/-- The slice of the view built by `buildHubnoteModalV2` in
src/unnamed/part_002 (lines 757-885) that the claims depend on.  The
pipeline, stage and record blocks embed their nonce in the block id
(`pipeline_block_v2_...` and so on, with a fixed prefix and the decimal
nonce, so two block ids are equal exactly when their nonces are); the
note-title and note-body inputs carry `initial_value` from the builder
arguments, with the empty string mapped to an absent value
(`noteTitleInitial || undefined`). -/
structure ViewV2 where
  pipelineBlockNonce : Nat
  stageBlockNonce : Nat
  recordBlockNonce : Nat
  noteTitleInitial : Option String
  noteBodyInitial : Option String
  meta : HubnoteMeta
deriving DecidableEq

/-- Embedding of `buildHubnoteModalV2` of src/unnamed/part_002: the view
rendered from the given state, nonces and preserved free-text values. -/
def buildHubnoteModalV2 (meta : HubnoteMeta)
    (noteTitleInitial noteBodyInitial : String) : ViewV2 :=
  { pipelineBlockNonce := meta.noncePipeline
    stageBlockNonce := meta.nonceStage
    recordBlockNonce := meta.nonceRecord
    noteTitleInitial := if noteTitleInitial = "" then none else some noteTitleInitial
    noteBodyInitial := if noteBodyInitial = "" then none else some noteBodyInitial
    meta := meta }

/-- View-level transition of `app.action("hubnote_v2_record_type_select")` in
src/unnamed/part_002 (lines 920-963): the selected value defaults to
`"ticket"` when empty; the record type is stored, `pipelineId` and `stageId`
are cleared, all three nonces are bumped, the typed note title and body are
read back from the current view state (`typedTitle`, `typedBody`) and the
view is rebuilt with them as initial values. -/
def onRecordTypeSelectView (v : ViewV2) (value typedTitle typedBody : String) : ViewV2 :=
  let meta := v.meta
  let meta' : HubnoteMeta :=
    { meta with
      recordType := if value = "" then "ticket" else value
      pipelineId := ""
      stageId := ""
      noncePipeline := meta.noncePipeline + 1
      nonceStage := meta.nonceStage + 1
      nonceRecord := meta.nonceRecord + 1 }
  buildHubnoteModalV2 meta' typedTitle typedBody

/-- View-level transition of `app.action("hubnote_v2_pipeline_select")` in
src/unnamed/part_002 (lines 994-1034): stores the pipeline (possibly empty),
clears `stageId`, bumps the stage and record nonces, and rebuilds with the
read-back free text. -/
def onPipelineSelectView (v : ViewV2) (value typedTitle typedBody : String) : ViewV2 :=
  let meta := v.meta
  let meta' : HubnoteMeta :=
    { meta with
      pipelineId := value
      stageId := ""
      nonceStage := meta.nonceStage + 1
      nonceRecord := meta.nonceRecord + 1 }
  buildHubnoteModalV2 meta' typedTitle typedBody

/-- View-level transition of `app.action("hubnote_v2_stage_select")` in
src/unnamed/part_002 (lines 1070-1108): stores the stage (possibly empty),
bumps the record nonce, and rebuilds with the read-back free text. -/
def onStageSelectView (v : ViewV2) (value typedTitle typedBody : String) : ViewV2 :=
  let meta := v.meta
  let meta' : HubnoteMeta :=
    { meta with
      stageId := value
      nonceRecord := meta.nonceRecord + 1 }
  buildHubnoteModalV2 meta' typedTitle typedBody

/-- Embedding of `app.options("hubnote_v2_record_select")` in
src/unnamed/part_002 (lines 1111-1143).  The guards answer immediately from
metadata; the live search is raced against a 2500 ms timer
(`Promise.race([hsSearchRecords(...), reject after 2500])`), so a search
slower than 2500 ms is acknowledged at 2500 ms with the timed-out sentinel
option; an error from a search that settles in time is acknowledged with a
generic error option. -/
def recordSelectOptions (meta : HubnoteMeta) (searchDelayMs : Nat)
    (outcome : IndexJs.SearchOutcome) : IndexJs.OptionsAck :=
  if meta.pipelineId = "" ∨ meta.pipelineId = "__loading__" then
    { opts := [("Select a pipeline first", "__select_pipeline__")], ackDelayMs := 0 }
  else if meta.stageId = "" ∨ meta.stageId = "__loading__" then
    { opts := [("Select a stage first", "__select_stage__")], ackDelayMs := 0 }
  else if 2500 < searchDelayMs then
    { opts := [("Search timed out — try again", "__timeout__")], ackDelayMs := 2500 }
  else
    match outcome with
    | .ok records =>
      { opts := (records.take 100).map fun r => (jsSlice 75 r.label, r.id)
        ackDelayMs := searchDelayMs }
    | .fail =>
      { opts := [("Error searching records", "__error__")], ackDelayMs := searchDelayMs }

end Part002

/-! ## Codec lemmas: the printer and parser are mutually inverse -/

theorem hexVal_hexDigit {n : Nat} (h : n < 16) : hexVal (hexDigit n) = some n := by
  interval_cases n <;> decide

theorem hexVal_zero : hexVal '0' = some 0 := by decide

theorem parseStrBody_escStr (l : List Char) (rest : List Char) :
    parseStrBody (escStr l ++ '"' :: rest) = some (l, rest) := by
  induction l with
  | nil =>
    rw [escStr, List.nil_append, parseStrBody.eq_def]
    simp
  | cons c tl ih =>
    by_cases hq : c = '"'
    · subst hq
      rw [escStr, escChar, if_pos rfl, List.cons_append, List.singleton_append,
        parseStrBody.eq_def]
      simp [ih]
    · by_cases hb : c = '\\'
      · subst hb
        rw [escStr, escChar, if_neg (by decide), if_pos rfl, List.cons_append,
          List.singleton_append, parseStrBody.eq_def]
        simp [ih]
      · by_cases hc : c.toNat < 32
        · have h16 : c.toNat / 16 < 16 := by omega
          have hm : c.toNat % 16 < 16 := Nat.mod_lt _ (by norm_num)
          rw [escStr, escChar, if_neg hq, if_neg hb, if_pos hc]
          rw [show ['\\', 'u', '0', '0', hexDigit (c.toNat / 16), hexDigit (c.toNat % 16)] ++
                escStr tl ++ '"' :: rest =
              '\\' :: 'u' :: '0' :: '0' :: hexDigit (c.toNat / 16) ::
                hexDigit (c.toNat % 16) :: (escStr tl ++ '"' :: rest) by simp]
          rw [parseStrBody.eq_def]
          simp [hexVal_zero, hexVal_hexDigit h16, hexVal_hexDigit hm, ih]
          rw [show c.toNat / 16 * 16 + c.toNat % 16 = c.toNat by omega, Char.ofNat_toNat]
        · rw [escStr, escChar, if_neg hq, if_neg hb, if_neg hc, List.singleton_append,
            parseStrBody.eq_def]
          simp [hq, hb, ih]

theorem parseStringLit_strLit (s : String) (rest : List Char) :
    parseStringLit (strLit s ++ rest) = some (s, rest) := by
  rw [show strLit s ++ rest = '"' :: (escStr s.data ++ '"' :: rest) by simp [strLit]]
  rw [parseStringLit]
  rw [parseStrBody_escStr]
  rfl

theorem parseMembers_members (tl : List (String × String)) :
    ∀ (k v : String) (fuel : Nat) (rest : List Char), tl.length < fuel →
      parseMembers fuel (membersChars ((k, v) :: tl) ++ '}' :: rest) =
        some ((k, v) :: tl, rest) := by
  induction tl with
  | nil =>
    intro k v fuel rest hf
    match fuel, hf with
    | fuel + 1, _ =>
      rw [membersChars]
      rw [show (strLit k ++ ':' :: strLit v) ++ '}' :: rest =
            strLit k ++ ':' :: (strLit v ++ '}' :: rest) by simp]
      rw [parseMembers, parseStringLit_strLit]
      simp [parseStringLit_strLit]
  | cons hd tl2 ih =>
    intro k v fuel rest hf
    match fuel, hf with
    | fuel + 1, hf =>
      obtain ⟨k2, v2⟩ := hd
      rw [show membersChars ((k, v) :: (k2, v2) :: tl2) =
            strLit k ++ ':' :: strLit v ++ ',' :: membersChars ((k2, v2) :: tl2) from rfl]
      rw [show (strLit k ++ ':' :: strLit v ++ ',' :: membersChars ((k2, v2) :: tl2)) ++ '}' :: rest =
            strLit k ++ ':' :: (strLit v ++ ',' :: (membersChars ((k2, v2) :: tl2) ++ '}' :: rest)) by simp]
      rw [parseMembers, parseStringLit_strLit]
      simp only [parseStringLit_strLit]
      rw [ih k2 v2 fuel rest (by simpa using Nat.lt_of_succ_lt_succ hf)]
      rfl

theorem length_le_membersChars (fields : List (String × String)) :
    fields.length ≤ (membersChars fields).length := by
  induction fields with
  | nil => simp [membersChars]
  | cons hd tl ih =>
    obtain ⟨k, v⟩ := hd
    cases tl with
    | nil => simp [membersChars, strLit]
    | cons hd2 tl2 =>
      rw [show membersChars ((k, v) :: hd2 :: tl2) =
            strLit k ++ ':' :: strLit v ++ ',' :: membersChars (hd2 :: tl2) from rfl]
      simp only [List.length_cons, List.length_append, strLit]
      simp at ih ⊢
      omega

theorem membersChars_cons_ne_nil (k v : String) (tl : List (String × String)) :
    membersChars ((k, v) :: tl) ≠ [] := by
  cases tl with
  | nil => simp [membersChars, strLit]
  | cons hd2 tl2 =>
    rw [show membersChars ((k, v) :: hd2 :: tl2) =
          strLit k ++ ':' :: strLit v ++ ',' :: membersChars (hd2 :: tl2) from rfl]
    simp [strLit]

theorem jsonParseFlat_stringify (fields : List (String × String)) :
    jsonParseFlat (jsonStringifyFlat fields) = some fields := by
  cases fields with
  | nil => rfl
  | cons hd tl =>
    obtain ⟨k, v⟩ := hd
    have hstep : jsonParseFlat (jsonStringifyFlat ((k, v) :: tl)) =
        (if membersChars ((k, v) :: tl) ++ ['}'] = ['}'] then some []
         else
           match parseMembers (membersChars ((k, v) :: tl) ++ ['}']).length
               (membersChars ((k, v) :: tl) ++ ['}']) with
           | some (fields, []) => some fields
           | _ => none) := rfl
    rw [hstep]
    have hne : membersChars ((k, v) :: tl) ++ ['}'] ≠ ['}'] := by
      intro h
      have := membersChars_cons_ne_nil k v tl
      have hlen := congrArg List.length h
      simp at hlen
      exact this hlen
    rw [if_neg hne]
    have hfuel : tl.length < (membersChars ((k, v) :: tl) ++ ['}']).length := by
      have h1 := length_le_membersChars ((k, v) :: tl)
      simp only [List.length_cons] at h1
      simp [List.length_append]
      omega
    rw [show membersChars ((k, v) :: tl) ++ ['}'] =
          membersChars ((k, v) :: tl) ++ '}' :: [] from rfl]
    rw [parseMembers_members tl k v _ [] hfuel]

theorem jsonStringifyFlat_ne_empty (fields : List (String × String)) :
    jsonStringifyFlat fields ≠ "" := by
  intro h
  have := congrArg String.data h
  simp [jsonStringifyFlat] at this

theorem parsePrivateMetadata_stringify (fields : List (String × String)) :
    parsePrivateMetadata (some (jsonStringifyFlat fields)) = fields := by
  rw [parsePrivateMetadata]
  simp only [if_neg (jsonStringifyFlat_ne_empty fields)]
  rw [jsonParseFlat_stringify]
  rfl

/-- C7: for every valid modal state (the JSON-representable metadata object
produced by the hubnote modal builder, here given by its serialized field
list), decoding its encoding yields the same state:
`parsePrivateMetadata(JSON.stringify(state))` equals `state`. -/
theorem hubnote_c7_codec_roundtrip (m : IndexJs.HubnoteMeta) :
    parsePrivateMetadata (some (jsonStringifyFlat m.toFields)) = m.toFields :=
  parsePrivateMetadata_stringify m.toFields

/-- C8: the metadata decoder applied to absent input, to the empty string and
to the malformed string `"{not json"` returns the default empty state in each
case (the embedding is a total function, so no exception escapes). -/
theorem hubnote_c8_codec_tolerance :
    parsePrivateMetadata none = [] ∧ parsePrivateMetadata (some "") = [] ∧
      parsePrivateMetadata (some "\x7bnot json") = [] := by decide

/-! ## C1: prefix-validity of the dependent-selection metadata state -/

theorem chainValid_applyEvents (evs : List IndexJs.FieldEvent) :
    ∀ m : IndexJs.HubnoteMeta, IndexJs.chainValid m → IndexJs.stageGuarded m evs →
      IndexJs.chainValid (IndexJs.applyEvents m evs) := by
  induction evs with
  | nil => intro m hm _; exact hm
  | cons e rest ih =>
    intro m hm hg
    rw [IndexJs.applyEvents]
    cases e with
    | recordType v =>
      simp only [IndexJs.stageGuarded] at hg
      refine ih _ ?_ hg.2
      rw [IndexJs.applyEvent, IndexJs.onRecordTypeSelect]
      split
      · exact hm
      · intro h; simp at h
    | pipeline v =>
      simp only [IndexJs.stageGuarded] at hg
      refine ih _ ?_ hg.2
      rw [IndexJs.applyEvent, IndexJs.onPipelineSelect]
      split
      · exact hm
      · intro h; simp at h
    | stage v l =>
      simp only [IndexJs.stageGuarded] at hg
      refine ih _ ?_ hg.2
      have hp : m.pipelineId ≠ "" := hg.1
      rw [IndexJs.applyEvent, IndexJs.onStageSelect]
      split
      · exact hm
      · intro _; exact hp

/-- C1 (corrected): starting from the state the `/hubnote` command opens the
modal with, prefix-validity (`stageId` non-empty only under a non-empty
`pipelineId`) holds after every sequence of field-change events in which each
stage-change event arrives while a pipeline is selected; and the record-type
and pipeline handlers do atomically clear their dependent downstream
metadata fields in the same transition.  (The stage handler itself does not
guard on `pipelineId`, so the unrestricted claim fails, and the metadata
carries no `recordId` field at all.) -/
theorem hubnote_c1_prefix_validity :
    (∀ (cid ch u : String) (evs : List IndexJs.FieldEvent),
        IndexJs.stageGuarded (IndexJs.initMeta cid ch u) evs →
        IndexJs.chainValid (IndexJs.applyEvents (IndexJs.initMeta cid ch u) evs)) ∧
    (∀ (m : IndexJs.HubnoteMeta) (v : String), v ≠ "" →
        (IndexJs.onRecordTypeSelect m v).pipelineId = "" ∧
        (IndexJs.onRecordTypeSelect m v).stageId = "") ∧
    (∀ (m : IndexJs.HubnoteMeta) (v : String), v ≠ "" →
        (IndexJs.onPipelineSelect m v).stageId = "") := by
  refine ⟨fun cid ch u evs hg => chainValid_applyEvents evs _ ?_ hg, ?_, ?_⟩
  · intro h; simp [IndexJs.initMeta] at h
  · intro m v hv
    rw [IndexJs.onRecordTypeSelect, if_neg hv]
    exact ⟨rfl, rfl⟩
  · intro m v hv
    rw [IndexJs.onPipelineSelect, if_neg hv]

/-- Witness for C1: a concrete guarded event sequence (record type, then
pipeline, then stage) ends prefix-valid, and concrete record-type and
pipeline changes clear their downstream fields. -/
theorem hubnote_c1_witness :
    IndexJs.chainValid (IndexJs.applyEvents (IndexJs.initMeta "hubnote_1" "C100" "U100")
      [IndexJs.FieldEvent.recordType "deal", IndexJs.FieldEvent.pipeline "p1",
       IndexJs.FieldEvent.stage "s1" "Stage 1"]) ∧
    ((IndexJs.onRecordTypeSelect (IndexJs.initMeta "hubnote_1" "C100" "U100") "deal").pipelineId = "" ∧
     (IndexJs.onRecordTypeSelect (IndexJs.initMeta "hubnote_1" "C100" "U100") "deal").stageId = "") ∧
    (IndexJs.onPipelineSelect (IndexJs.initMeta "hubnote_1" "C100" "U100") "p1").stageId = "" :=
  ⟨hubnote_c1_prefix_validity.1 "hubnote_1" "C100" "U100" _ (by decide),
   hubnote_c1_prefix_validity.2.1 _ "deal" (by decide),
   hubnote_c1_prefix_validity.2.2 _ "p1" (by decide)⟩

/-- Counterexample for C1 as stated: the stage-select handler stores any
non-empty selection value without requiring a pipeline, so a stage-change
event arriving while `pipelineId` is empty (for example the user picking the
"Select a pipeline first" placeholder option the options handler serves in
that state) yields a state with `stageId` non-empty and `pipelineId` empty —
prefix-validity is violated after this event sequence. -/
theorem hubnote_c1_counterexample :
    (IndexJs.applyEvents (IndexJs.initMeta "hubnote_1" "C100" "U100")
        [IndexJs.FieldEvent.stage "SELECT_PIPELINE_FIRST" ""]).stageId ≠ "" ∧
    (IndexJs.applyEvents (IndexJs.initMeta "hubnote_1" "C100" "U100")
        [IndexJs.FieldEvent.stage "SELECT_PIPELINE_FIRST" ""]).pipelineId = "" := by
  decide

/-! ## C2: free-text preservation across a rebuild -/

/-- C2 (corrected): in the part_002 snapshot the record-type handler reads
the typed note title and body back from the current view state and re-injects
them verbatim as the rebuilt view's initial values; in the src/index.js
snapshot the rebuilt view carries no initial values for these inputs at all —
there the typed text survives only because the title and body blocks keep
their block ids, so the transport retains the input state itself. -/
theorem hubnote_c2_free_text_preserved :
    (∀ (v : Part002.ViewV2) (value tT tB : String), tT ≠ "" → tB ≠ "" →
        (Part002.onRecordTypeSelectView v value tT tB).noteTitleInitial = some tT ∧
        (Part002.onRecordTypeSelectView v value tT tB).noteBodyInitial = some tB) ∧
    (∀ (v : IndexJs.ViewV2) (value : String), value ≠ "" →
        (IndexJs.onRecordTypeSelectView v value).noteTitleInitial = none ∧
        (IndexJs.onRecordTypeSelectView v value).noteBodyInitial = none) := by
  constructor
  · intro v value tT tB hT hB
    simp [Part002.onRecordTypeSelectView, Part002.buildHubnoteModalV2, hT, hB]
  · intro v value hv
    simp [IndexJs.onRecordTypeSelectView, IndexJs.buildHubnoteModalV2, hv]

/-- Witness for C2: a concrete part_002 rebuild re-injects typed text, and a
concrete src/index.js rebuild carries no initial values. -/
theorem hubnote_c2_witness :
    ((Part002.onRecordTypeSelectView
        (Part002.buildHubnoteModalV2 ⟨"hubnote_2", "C200", "U200", "v2", "ticket", "p1", "s1", 1, 1, 1⟩ "" "")
        "deal" "My title" "My body").noteTitleInitial = some "My title" ∧
     (Part002.onRecordTypeSelectView
        (Part002.buildHubnoteModalV2 ⟨"hubnote_2", "C200", "U200", "v2", "ticket", "p1", "s1", 1, 1, 1⟩ "" "")
        "deal" "My title" "My body").noteBodyInitial = some "My body") ∧
    ((IndexJs.onRecordTypeSelectView
        (IndexJs.buildHubnoteModalV2 (IndexJs.initMeta "hubnote_2" "C200" "U200"))
        "deal").noteTitleInitial = none ∧
     (IndexJs.onRecordTypeSelectView
        (IndexJs.buildHubnoteModalV2 (IndexJs.initMeta "hubnote_2" "C200" "U200"))
        "deal").noteBodyInitial = none) :=
  ⟨hubnote_c2_free_text_preserved.1 _ "deal" "My title" "My body" (by decide) (by decide),
   hubnote_c2_free_text_preserved.2 _ "deal" (by decide)⟩

/-- Counterexample for C2 as stated: in src/index.js the record-type handler
never reads the typed text back — the rebuilt view's note-title and
note-body elements carry no initial value, so after a user has typed
"My title" the rebuilt view's initial title is absent rather than the typed
text re-injected verbatim. -/
theorem hubnote_c2_counterexample :
    (IndexJs.onRecordTypeSelectView
        (IndexJs.buildHubnoteModalV2 (IndexJs.initMeta "hubnote_2b" "C201" "U201"))
        "deal").noteTitleInitial ≠ some "My title" ∧
    (IndexJs.onRecordTypeSelectView
        (IndexJs.buildHubnoteModalV2 (IndexJs.initMeta "hubnote_2b" "C201" "U201"))
        "deal").noteTitleInitial = none ∧
    (IndexJs.onRecordTypeSelectView
        (IndexJs.buildHubnoteModalV2 (IndexJs.initMeta "hubnote_2b" "C201" "U201"))
        "deal").noteBodyInitial = none := by
  decide

/-! ## C3: stage change and the dependent record selection -/

/-- C3 (corrected): in the part_002 snapshot the stage handler sets the new
stage and bumps the record nonce, so the record block's structural identity
changes and the transport discards the stale leaf selection; in the
src/index.js snapshot the stage handler only rewrites metadata, leaving the
record block — and any selection sitting in it — untouched. -/
theorem hubnote_c3_stage_clears_record :
    ∀ (v : Part002.ViewV2) (value tT tB : String),
      v.meta.pipelineId ≠ "" → value ≠ "" →
      v.recordBlockNonce = v.meta.nonceRecord →
      (Part002.onStageSelectView v value tT tB).meta.stageId = value ∧
      (Part002.onStageSelectView v value tT tB).recordBlockNonce = v.recordBlockNonce + 1 ∧
      ∀ oldSel : String,
        retainedSelection v.recordBlockNonce
          (Part002.onStageSelectView v value tT tB).recordBlockNonce oldSel = "" := by
  intro v value tT tB hp hv hn
  refine ⟨rfl, ?_, ?_⟩
  · simp [Part002.onStageSelectView, Part002.buildHubnoteModalV2, hn]
  · intro oldSel
    have hne : (Part002.onStageSelectView v value tT tB).recordBlockNonce ≠ v.recordBlockNonce := by
      simp [Part002.onStageSelectView, Part002.buildHubnoteModalV2, hn]
    rw [retainedSelection, if_neg hne]

/-- Witness for C3: a concrete part_002 stage change under a selected
pipeline sets the stage, bumps the record nonce and discards a previously
selected record. -/
theorem hubnote_c3_witness :
    (Part002.onStageSelectView
        (Part002.buildHubnoteModalV2 ⟨"hubnote_3", "C300", "U300", "v2", "ticket", "p1", "", 1, 1, 1⟩ "" "")
        "s2" "" "").meta.stageId = "s2" ∧
    (Part002.onStageSelectView
        (Part002.buildHubnoteModalV2 ⟨"hubnote_3", "C300", "U300", "v2", "ticket", "p1", "", 1, 1, 1⟩ "" "")
        "s2" "" "").recordBlockNonce =
      (Part002.buildHubnoteModalV2 ⟨"hubnote_3", "C300", "U300", "v2", "ticket", "p1", "", 1, 1, 1⟩ "" "").recordBlockNonce + 1 ∧
    retainedSelection
      (Part002.buildHubnoteModalV2 ⟨"hubnote_3", "C300", "U300", "v2", "ticket", "p1", "", 1, 1, 1⟩ "" "").recordBlockNonce
      (Part002.onStageSelectView
        (Part002.buildHubnoteModalV2 ⟨"hubnote_3", "C300", "U300", "v2", "ticket", "p1", "", 1, 1, 1⟩ "" "")
        "s2" "" "").recordBlockNonce "r1" = "" := by
  have h := hubnote_c3_stage_clears_record
    (Part002.buildHubnoteModalV2 ⟨"hubnote_3", "C300", "U300", "v2", "ticket", "p1", "", 1, 1, 1⟩ "" "")
    "s2" "" "" (by decide) (by decide) rfl
  exact ⟨h.1, h.2.1, h.2.2 "r1"⟩

/-- Counterexample for C3 as stated: in src/index.js the stage handler
applied to a state with a selected pipeline stores the new stage but performs
no rebuild — the record block keeps its block id, so a previously selected
record "r1" is retained (not cleared or invalidated). -/
theorem hubnote_c3_counterexample :
    (IndexJs.onStageSelectView
        (IndexJs.buildHubnoteModalV2 { IndexJs.initMeta "hubnote_3b" "C301" "U301" with pipelineId := "p1" })
        "s2" "Stage Two").meta.stageId = "s2" ∧
    (IndexJs.onStageSelectView
        (IndexJs.buildHubnoteModalV2 { IndexJs.initMeta "hubnote_3b" "C301" "U301" with pipelineId := "p1" })
        "s2" "Stage Two").recordBlockSuffix =
      (IndexJs.buildHubnoteModalV2 { IndexJs.initMeta "hubnote_3b" "C301" "U301" with pipelineId := "p1" }).recordBlockSuffix ∧
    retainedSelection
      (IndexJs.buildHubnoteModalV2 { IndexJs.initMeta "hubnote_3b" "C301" "U301" with pipelineId := "p1" }).recordBlockSuffix
      (IndexJs.onStageSelectView
        (IndexJs.buildHubnoteModalV2 { IndexJs.initMeta "hubnote_3b" "C301" "U301" with pipelineId := "p1" })
        "s2" "Stage Two").recordBlockSuffix "r1" = "r1" := by
  decide

/-! ## C4: timeout wrapping of the record-search option-list request -/

/-- C4 (corrected): in the part_002 snapshot the record-search option-list
call is raced against a 2500 ms timer — the handler always acknowledges
within 2500 ms (under the ~3 s transport deadline), and when the search
outlasts the timer it acknowledges with the distinguishable
"Search timed out — try again" sentinel; the src/index.js snapshot has no
such wrapper (see the counterexample). -/
theorem hubnote_c4_record_search_timeout :
    (∀ (meta : Part002.HubnoteMeta) (searchDelayMs : Nat) (o : IndexJs.SearchOutcome),
        (Part002.recordSelectOptions meta searchDelayMs o).ackDelayMs ≤ 2500) ∧
    (∀ (meta : Part002.HubnoteMeta) (searchDelayMs : Nat) (o : IndexJs.SearchOutcome),
        ¬(meta.pipelineId = "" ∨ meta.pipelineId = "__loading__") →
        ¬(meta.stageId = "" ∨ meta.stageId = "__loading__") →
        2500 < searchDelayMs →
        (Part002.recordSelectOptions meta searchDelayMs o).opts =
          [("Search timed out — try again", "__timeout__")]) := by
  constructor
  · intro meta d o
    rw [Part002.recordSelectOptions.eq_def]
    split_ifs with h1 h2 h3
    · simp
    · simp
    · simp
    · cases o <;> simp <;> omega
  · intro meta d o h1 h2 h3
    rw [Part002.recordSelectOptions.eq_def, if_neg h1, if_neg h2, if_pos h3]

/-- Witness for C4: with pipeline and stage selected and a search that takes
10 seconds, the part_002 handler acknowledges at 2500 ms with the timed-out
sentinel. -/
theorem hubnote_c4_witness :
    (Part002.recordSelectOptions ⟨"hubnote_4", "C400", "U400", "v2", "ticket", "p1", "s1", 0, 0, 0⟩
        10000 (IndexJs.SearchOutcome.ok [])).ackDelayMs ≤ 2500 ∧
    (Part002.recordSelectOptions ⟨"hubnote_4", "C400", "U400", "v2", "ticket", "p1", "s1", 0, 0, 0⟩
        10000 (IndexJs.SearchOutcome.ok [])).opts =
      [("Search timed out — try again", "__timeout__")] :=
  ⟨hubnote_c4_record_search_timeout.1 _ 10000 _,
   hubnote_c4_record_search_timeout.2 _ 10000 _ (by decide) (by decide) (by decide)⟩

/-- Counterexample for C4 as stated: the src/index.js record-search options
handler awaits the HubSpot search directly with no handler-level timeout — a
10-second search is acknowledged only after 10 seconds (past the ~3 s
transport deadline) with ordinary options, and a failed search is
acknowledged with a generic error option, never with a timed-out sentinel. -/
theorem hubnote_c4_counterexample :
    IndexJs.recordSelectOptions
        { IndexJs.initMeta "hubnote_4b" "C401" "U401" with pipelineId := "p1", stageId := "s1" }
        10000 (IndexJs.SearchOutcome.ok [⟨"201", "Billing issue"⟩]) =
      ⟨[("Billing issue", "201")], 10000⟩ ∧
    IndexJs.recordSelectOptions
        { IndexJs.initMeta "hubnote_4b" "C401" "U401" with pipelineId := "p1", stageId := "s1" }
        10000 IndexJs.SearchOutcome.fail =
      ⟨[("ERROR loading records", "ERROR_RECORDS")], 10000⟩ := by
  decide

/-! ## C5: submit-time validation of required fields -/

/-- C5 (corrected): on submission, missing record type, pipeline, note title
and note body are each detected from already-known state and reported inline
attached to their specific block before acknowledgment; but a missing stage
or record is only checked after the acknowledgment commits and is surfaced as
a generic ephemeral message, not inline. -/
theorem hubnote_c5_submit_validation :
    ∀ (meta : IndexJs.HubnoteMeta) (vs : IndexJs.SubmitValues) (cfg : Bool),
      (IndexJs.submitErrors meta vs ≠ [] →
        IndexJs.hubnoteSubmit meta vs cfg =
          IndexJs.SubmitOutcome.inlineErrors (IndexJs.submitErrors meta vs)) ∧
      (IndexJs.effRecordType meta vs = "" →
        ("record_type_block_v2", "Select Ticket or Deal.") ∈ IndexJs.submitErrors meta vs) ∧
      (IndexJs.effPipelineId meta vs = "" →
        ("pipeline_block_v2", "Select a pipeline.") ∈ IndexJs.submitErrors meta vs) ∧
      (jsTrim vs.noteTitleRaw = "" →
        ("note_title_block_v2", "Note title is required.") ∈ IndexJs.submitErrors meta vs) ∧
      (jsTrim vs.noteBodyRaw = "" →
        ("note_body_block_v2", "Note body is required.") ∈ IndexJs.submitErrors meta vs) ∧
      (IndexJs.submitErrors meta vs = [] →
        (IndexJs.effStageId meta vs = "" ∨ vs.recordSel = "") →
        IndexJs.hubnoteSubmit meta vs cfg =
          IndexJs.SubmitOutcome.postAckEphemeral
            "Please select Pipeline Stage and Record before submitting.") := by
  intro meta vs cfg
  refine ⟨?_, ?_, ?_, ?_, ?_, ?_⟩
  · intro h
    rw [IndexJs.hubnoteSubmit, if_pos h]
  · intro h
    simp [IndexJs.submitErrors, h]
  · intro h
    simp [IndexJs.submitErrors, h]
  · intro h
    simp [IndexJs.submitErrors, h]
  · intro h
    simp [IndexJs.submitErrors, h]
  · intro h hsr
    rw [IndexJs.hubnoteSubmit, if_neg (by simp [h]), if_pos hsr]

/-- Witness for C5: a concrete submission with a blank title is answered with
the inline error list containing the note-title block error, and a concrete
submission missing only the stage is answered with the generic post-ack
ephemeral message. -/
theorem hubnote_c5_witness :
    IndexJs.hubnoteSubmit (IndexJs.initMeta "hubnote_5" "C500" "U500")
        ⟨"ticket", "p1", "s1", "r1", "   ", "Discussed billing"⟩ true =
      IndexJs.SubmitOutcome.inlineErrors
        (IndexJs.submitErrors (IndexJs.initMeta "hubnote_5" "C500" "U500")
          ⟨"ticket", "p1", "s1", "r1", "   ", "Discussed billing"⟩) ∧
    ("note_title_block_v2", "Note title is required.") ∈
      IndexJs.submitErrors (IndexJs.initMeta "hubnote_5" "C500" "U500")
        ⟨"ticket", "p1", "s1", "r1", "   ", "Discussed billing"⟩ ∧
    IndexJs.hubnoteSubmit (IndexJs.initMeta "hubnote_5" "C500" "U500")
        ⟨"ticket", "p1", "", "r1", "Call recap", "Discussed billing"⟩ true =
      IndexJs.SubmitOutcome.postAckEphemeral
        "Please select Pipeline Stage and Record before submitting." :=
  ⟨(hubnote_c5_submit_validation (IndexJs.initMeta "hubnote_5" "C500" "U500")
      ⟨"ticket", "p1", "s1", "r1", "   ", "Discussed billing"⟩ true).1 (by decide),
   (hubnote_c5_submit_validation (IndexJs.initMeta "hubnote_5" "C500" "U500")
      ⟨"ticket", "p1", "s1", "r1", "   ", "Discussed billing"⟩ true).2.2.2.1 (by decide),
   (hubnote_c5_submit_validation (IndexJs.initMeta "hubnote_5" "C500" "U500")
      ⟨"ticket", "p1", "", "r1", "Call recap", "Discussed billing"⟩ true).2.2.2.2.2
     (by decide) (by decide)⟩

/-- Counterexample for C5 as stated: a submission that only lacks the stage
passes every pre-ack check, so the missing required field is surfaced as a
generic ephemeral message delivered after acknowledgment — not inline
attached to the offending block. -/
theorem hubnote_c5_counterexample :
    IndexJs.hubnoteSubmit (IndexJs.initMeta "hubnote_5b" "C501" "U501")
        ⟨"ticket", "p1", "", "r1", "Call recap", "Discussed billing"⟩ true =
      IndexJs.SubmitOutcome.postAckEphemeral
        "Please select Pipeline Stage and Record before submitting." := by
  decide

/-! ## C6: session store reads and lazy expiry -/

/-- C6: the session-store read returns nothing both for an id that was never
stored and for a stored session whose 15-minute TTL has elapsed, and a read
finding an expired session evicts it from the store even though delete was
never called. -/
theorem hubnote_c6_session_expiry :
    (∀ (store : IndexJs.SessionStore) (id : String) (nowMs : Nat),
        store id = none → (IndexJs.hubnoteGetSession store id nowMs).1 = none) ∧
    (∀ (store : IndexJs.SessionStore) (id : String) (data : IndexJs.Session)
        (setNowMs nowMs : Nat),
        setNowMs + IndexJs.HUBNOTE_SESSION_TTL_MS < nowMs →
        (IndexJs.hubnoteGetSession
            (IndexJs.hubnoteSetSession store id data setNowMs) id nowMs).1 = none ∧
        (IndexJs.hubnoteGetSession
            (IndexJs.hubnoteSetSession store id data setNowMs) id nowMs).2 id = none) := by
  constructor
  · intro store id nowMs h
    simp [IndexJs.hubnoteGetSession, h]
  · intro store id data setNowMs nowMs h
    simp [IndexJs.hubnoteGetSession, IndexJs.hubnoteSetSession, h]

/-- Witness for C6: reading an id never stored in the empty store yields
nothing, and a session stored at time 0 read at time 1000000 (past the
900000 ms TTL) yields nothing and is evicted. -/
theorem hubnote_c6_witness :
    (IndexJs.hubnoteGetSession (fun _ => none) "hn_a" 5000).1 = none ∧
    (IndexJs.hubnoteGetSession
        (IndexJs.hubnoteSetSession (fun _ => none) "hn_b"
          ⟨"corr_b", "n1", "ticket", "42", "C600", "U600", "", "hn_b", 0⟩ 0)
        "hn_b" 1000000).1 = none ∧
    (IndexJs.hubnoteGetSession
        (IndexJs.hubnoteSetSession (fun _ => none) "hn_b"
          ⟨"corr_b", "n1", "ticket", "42", "C600", "U600", "", "hn_b", 0⟩ 0)
        "hn_b" 1000000).2 "hn_b" = none :=
  ⟨hubnote_c6_session_expiry.1 (fun _ => none) "hn_a" 5000 rfl,
   (hubnote_c6_session_expiry.2 (fun _ => none) "hn_b"
      ⟨"corr_b", "n1", "ticket", "42", "C600", "U600", "", "hn_b", 0⟩ 0 1000000 (by decide)).1,
   (hubnote_c6_session_expiry.2 (fun _ => none) "hn_b"
      ⟨"corr_b", "n1", "ticket", "42", "C600", "U600", "", "hn_b", 0⟩ 0 1000000 (by decide)).2⟩

/-! ## C9: object-type normalization in POST /api/hubnote/create -/

/-- C9: a request that passes the missing-field checks is never rejected for
carrying an unrecognized `hubspot_object_type`; any value that is not
case-insensitively equal to "deal" is silently normalized to "ticket". -/
theorem hubnote_c9_object_type_normalized :
    ∀ b : IndexJs.CreateBody, IndexJs.createMissing b = [] →
      (IndexJs.jsToLower b.hubspot_object_type ≠ "deal" →
        IndexJs.hubnoteCreateDecide b =
          IndexJs.CreateDecision.proceed "ticket" b.hubspot_object_id) ∧
      ∀ missing, IndexJs.hubnoteCreateDecide b ≠ IndexJs.CreateDecision.reject400 missing := by
  intro b h
  constructor
  · intro hne
    rw [IndexJs.hubnoteCreateDecide, if_neg (by simp [h])]
    rw [IndexJs.createRecordType, if_neg hne]
  · intro missing
    rw [IndexJs.hubnoteCreateDecide, if_neg (by simp [h])]
    simp

/-- Witness for C9: a complete request with object type "Company" (not a
deal, case-insensitively) proceeds as a "ticket" and is not rejected. -/
theorem hubnote_c9_witness :
    IndexJs.hubnoteCreateDecide
        ⟨"corr9", "Company", "42", "Call recap", "Discussed billing", "C900", "U900"⟩ =
      IndexJs.CreateDecision.proceed "ticket" "42" ∧
    IndexJs.hubnoteCreateDecide
        ⟨"corr9", "Company", "42", "Call recap", "Discussed billing", "C900", "U900"⟩ ≠
      IndexJs.CreateDecision.reject400 [] :=
  ⟨(hubnote_c9_object_type_normalized
      ⟨"corr9", "Company", "42", "Call recap", "Discussed billing", "C900", "U900"⟩
      (by decide)).1 (by decide),
   (hubnote_c9_object_type_normalized
      ⟨"corr9", "Company", "42", "Call recap", "Discussed billing", "C900", "U900"⟩
      (by decide)).2 []⟩

/-! ## C10: the add-files "Yes" button refreshes the session -/

/-- C10: when the "Yes" button finds a live session and the DM opens, the
handler re-stores the session with every field unchanged except
`dmChannelId` (set to the opened DM channel) and the expiry, which is reset
to a fresh 15-minute TTL from the re-store time — each successful "Yes"
interaction extends the session's lifetime. -/
theorem hubnote_c10_yes_refreshes_session :
    ∀ (store : IndexJs.SessionStore) (id : String) (s : IndexJs.Session)
      (tGetMs tSetMs : Nat) (dm : String),
      store id = some s → ¬(s.expiresAtMs < tGetMs) → s.sessionId = id → dm ≠ "" →
      (IndexJs.hubnoteAddFilesYes store id tGetMs (some dm) tSetMs).1 =
        IndexJs.YesOutcome.dmPromptSent dm ∧
      (IndexJs.hubnoteAddFilesYes store id tGetMs (some dm) tSetMs).2 id =
        some { s with dmChannelId := dm
                      expiresAtMs := tSetMs + IndexJs.HUBNOTE_SESSION_TTL_MS } := by
  intro store id s tGetMs tSetMs dm hs hlive hsid hdm
  obtain ⟨c1, c2, c3, c4, c5, c6, c7, c8, c9⟩ := s
  simp only at hsid
  subst hsid
  constructor
  · simp [IndexJs.hubnoteAddFilesYes, IndexJs.hubnoteGetSession, hs, hlive, hdm]
  · simp [IndexJs.hubnoteAddFilesYes, IndexJs.hubnoteGetSession,
      IndexJs.hubnoteSetSession, hs, hlive, hdm]

/-- Witness for C10: a session stored at time 0 under id "hn_c", clicked at
time 1000 with DM channel "D900" opened, is re-stored with only the DM
channel and the expiry (1500 + TTL) changed. -/
theorem hubnote_c10_witness :
    (IndexJs.hubnoteAddFilesYes
        (IndexJs.hubnoteSetSession (fun _ => none) "hn_c"
          ⟨"corr_c", "n2", "deal", "77", "C700", "U700", "", "hn_c", 0⟩ 0)
        "hn_c" 1000 (some "D900") 1500).1 = IndexJs.YesOutcome.dmPromptSent "D900" ∧
    (IndexJs.hubnoteAddFilesYes
        (IndexJs.hubnoteSetSession (fun _ => none) "hn_c"
          ⟨"corr_c", "n2", "deal", "77", "C700", "U700", "", "hn_c", 0⟩ 0)
        "hn_c" 1000 (some "D900") 1500).2 "hn_c" =
      some ⟨"corr_c", "n2", "deal", "77", "C700", "U700", "D900", "hn_c",
        1500 + IndexJs.HUBNOTE_SESSION_TTL_MS⟩ :=
  hubnote_c10_yes_refreshes_session
    (IndexJs.hubnoteSetSession (fun _ => none) "hn_c"
      ⟨"corr_c", "n2", "deal", "77", "C700", "U700", "", "hn_c", 0⟩ 0)
    "hn_c"
    ⟨"corr_c", "n2", "deal", "77", "C700", "U700", "", "hn_c",
      0 + IndexJs.HUBNOTE_SESSION_TTL_MS⟩
    1000 1500 "D900" (by decide) (by decide) rfl (by decide)

end SlackBot
